import Mathlib

/-!
Verification of the onboarding wizard in src/src/pages/Onboarding.jsx
(eco-lar-demo). The component is a four-step form with a mount-time route
guard, per-step validation gating forward navigation, and a single upsert
submission. We embed the pure logic of the component: the form state, the
per-step disabled predicate, the payload construction of handleSubmit, the
guard control flow, the submission mutation effects and the button
availability rules, and prove the spec claims about them.
-/

namespace Onboarding

/-- Result of the JavaScript function Number applied to a string: either NaN
or a finite decimal value, stored exactly as mantissa / 10 ^ fracDigits. The
constructor fin is only built in canonical form (trailing zero digits of the
fraction stripped), so structural equality coincides with numeric equality on
the values jsToNumber produces. -/
inductive JSNumber where
  | nan : JSNumber
  | fin (mantissa : Int) (fracDigits : Nat) : JSNumber
deriving DecidableEq, Repr

/-- Abbreviation for a whole-number JavaScript value. -/
def JSNumber.val (n : Int) : JSNumber := JSNumber.fin n 0

/-- Whitespace characters recognised by the JavaScript String trim method:
ASCII whitespace, line terminators and the no-break space. -/
def isJsWhitespace (c : Char) : Bool :=
  c = ' ' || c = '\t' || c = '\n' || c = '\r' ||
  c = (Char.ofNat 11) || c = (Char.ofNat 12) || c = (Char.ofNat 160)

/-- Model of the JavaScript String trim method: remove leading and trailing
whitespace. -/
def jsTrim (s : String) : String :=
  String.mk (((s.data.dropWhile isJsWhitespace).reverse.dropWhile isJsWhitespace).reverse)

/-- Value of a list of decimal digit characters. -/
def digitsToNat (cs : List Char) : Nat :=
  cs.foldl (fun a c => a * 10 + (c.toNat - 48)) 0

/-- True when every character is a decimal digit. -/
def allDigits (cs : List Char) : Bool :=
  cs.all Char.isDigit

/-- Model of the JavaScript conversion Number(s) on the decimal strings an
HTML number input produces: the string is trimmed, the empty string converts
to 0, an optional sign is followed by digits with an optional fractional
part, and anything else converts to NaN. Exotic forms (hexadecimal,
exponents, Infinity) are outside the domain of the household-size input and
are not modelled. -/
def jsToNumber (s : String) : JSNumber :=
  let t := jsTrim s
  if t = "" then JSNumber.val 0
  else
    let withSign : Int × List Char :=
      match t.data with
      | c :: r =>
        if c = '-' then (-1, r)
        else if c = '+' then (1, r)
        else (1, t.data)
      | [] => (1, t.data)
    let sg := withSign.1
    let cs := withSign.2
    let ip := cs.takeWhile (fun c => c ≠ '.')
    let rest := cs.dropWhile (fun c => c ≠ '.')
    match rest with
    | [] =>
      if !ip.isEmpty && allDigits ip then
        JSNumber.val (sg * Int.ofNat (digitsToNat ip))
      else JSNumber.nan
    | _ :: fp =>
      if (!ip.isEmpty || !fp.isEmpty) && allDigits ip && allDigits fp then
        let frac := (fp.reverse.dropWhile (fun c => c = '0')).reverse
        JSNumber.fin
          (sg * Int.ofNat (digitsToNat ip * 10 ^ frac.length + digitsToNat frac))
          frac.length
      else JSNumber.nan

/-- True when the number is a positive integer: positive and divisible by
the denominator 10 ^ fracDigits. -/
def JSNumber.isPosIntB : JSNumber → Bool
  | JSNumber.nan => false
  | JSNumber.fin m e => decide (0 < m) && (m % Int.ofNat (10 ^ e) == 0)

/-- The form state of the wizard (the formData useState record). -/
structure FormData where
  name : String
  household_size : String
  transportation_type : String
  has_solar_panels : Bool
  heating_type : String
  residence_size : String
  has_garden : Bool
  recycling_habit : String
deriving DecidableEq, Repr

/-- The initialFormState constant of the source file. -/
def initialFormState : FormData :=
  { name := ""
    household_size := ""
    transportation_type := ""
    has_solar_panels := false
    heating_type := ""
    residence_size := ""
    has_garden := false
    recycling_habit := "" }

/-- The totalSteps constant of the source file. -/
def totalSteps : Nat := 4

/-- The nextDisabled function of the source file. JavaScript negation of a
string is true exactly on the empty string, so each required-field test
becomes an equality with the empty string. -/
def nextDisabled (step : Nat) (fd : FormData) : Bool :=
  match step with
  | 1 => (jsTrim fd.name == "") || (fd.household_size == "") || (fd.residence_size == "")
  | 2 => fd.transportation_type == ""
  | 3 => fd.heating_type == ""
  | 4 => fd.recycling_habit == ""
  | _ => true

/-- The upsert payload built by handleSubmit. -/
structure Payload where
  name : String
  household_size : JSNumber
  transportation_type : String
  has_solar_panels : Bool
  heating_type : String
  residence_size : String
  has_garden : Bool
  recycling_habit : String
  onboarding_completed : Bool
  has_seen_intro : Bool
deriving DecidableEq, Repr

/-- The handleSubmit function of the source file, restricted to its pure
part: the payload it builds from the form state before calling
updateUser.mutate. -/
def handleSubmit (fd : FormData) : Payload :=
  { name := jsTrim fd.name
    household_size := jsToNumber fd.household_size
    transportation_type := fd.transportation_type
    has_solar_panels := fd.has_solar_panels
    heating_type := fd.heating_type
    residence_size := fd.residence_size
    has_garden := fd.has_garden
    recycling_habit := fd.recycling_habit
    onboarding_completed := true
    has_seen_intro := true }

/-- The arguments of the supabase upsert call inside updateUser: the row
(user_id spread together with the payload) and the onConflict key. -/
structure UpsertCall where
  user_id : String
  record : Payload
  onConflict : String
deriving DecidableEq, Repr

/-- The upsert issued by the updateUser mutation for an authenticated user
with the given id. -/
def updateUserCall (uid : String) (p : Payload) : UpsertCall :=
  { user_id := uid, record := p, onConflict := "user_id" }

/-- Payload modelled from the spec words: the form state with name trimmed,
household_size coerced via numeric conversion, the categorical and boolean
fields passed through unchanged, plus onboarding_completed = true and
has_seen_intro = true. Stated separately from handleSubmit so the two can be
compared. -/
def specSubmitPayload (fd : FormData) : Payload :=
  { name := jsTrim fd.name
    household_size := jsToNumber fd.household_size
    transportation_type := fd.transportation_type
    has_solar_panels := fd.has_solar_panels
    heating_type := fd.heating_type
    residence_size := fd.residence_size
    has_garden := fd.has_garden
    recycling_habit := fd.recycling_habit
    onboarding_completed := true
    has_seen_intro := true }

/-- The step-4 example form state from the spec (name Ana, household 3,
medium residence, bicycle, solar heating, always recycles). -/
def exampleForm : FormData :=
  { name := "Ana"
    household_size := "3"
    transportation_type := "bicycle"
    has_solar_panels := false
    heating_type := "solar"
    residence_size := "medium"
    has_garden := false
    recycling_habit := "always" }

/-- A row of the tb_user_infos table as selected by the guard query (only
the onboarding_completed column). -/
structure InfoRow where
  onboarding_completed : Bool
deriving DecidableEq, Repr

/-- An error returned by the store client; the guard only inspects its code
field. -/
structure StoreError where
  code : String
deriving DecidableEq, Repr

/-- The externally observable effects of one run of the guard function:
navigations issued (route names, in order), the argument of setUserInfos if
called, whether setFormData was called to reset the form, whether the error
was logged, and the argument of setLoadingUser if called. -/
structure GuardEffects where
  navigations : List String
  userInfosSet : Option (Option InfoRow)
  formDataReset : Bool
  errorLogged : Bool
  loadingUserSet : Option Bool
deriving DecidableEq, Repr

/-- Continuation of the guard after the error check: redirect to Dashboard
when the fetched row marks onboarding complete (optional chaining on a null
row yields undefined, hence false), otherwise store the row and reset the
form. The navigate call and both setters here are not conditioned on the
liveness flag in the source; only the finally clause checks it. m1 is the
value of the mounted flag after the await. -/
def guardAfterFetch (m1 : Bool) (data : Option InfoRow) : GuardEffects :=
  if (data.map InfoRow.onboarding_completed).getD false then
    { navigations := ["Dashboard"]
      userInfosSet := none
      formDataReset := false
      errorLogged := false
      loadingUserSet := if m1 then some false else none }
  else
    { navigations := []
      userInfosSet := some data
      formDataReset := true
      errorLogged := false
      loadingUserSet := if m1 then some false else none }

/-- The guard function of the mount effect. m0 is the mounted flag at the
synchronous start (the source checks it before doing anything, and the
finally clause reads the same value on the paths that return before the
await); m1 is the flag when the awaited query resolves. currentUser is the
auth context user id; data and infosError are the result of the
tb_user_infos query. An error with code other than PGRST116 is thrown and
handled by the catch branch, which logs it and, only if still mounted,
redirects to Login. -/
def runGuard (m0 m1 : Bool) (currentUser : Option String)
    (data : Option InfoRow) (infosError : Option StoreError) : GuardEffects :=
  if !m0 then
    { navigations := []
      userInfosSet := none
      formDataReset := false
      errorLogged := false
      loadingUserSet := none }
  else if currentUser.isNone then
    { navigations := ["Login"]
      userInfosSet := none
      formDataReset := false
      errorLogged := false
      loadingUserSet := some false }
  else
    match infosError with
    | some e =>
      if e.code ≠ "PGRST116" then
        { navigations := if m1 then ["Login"] else []
          userInfosSet := none
          formDataReset := false
          errorLogged := true
          loadingUserSet := if m1 then some false else none }
      else guardAfterFetch m1 data
    | none => guardAfterFetch m1 data

/-- The externally observable effects of one run of the updateUser mutation:
navigations issued by onSuccess, whether isPending was true while the
request was in flight, and the value of isPending after it settled. -/
structure SubmitEffects where
  nav : List String
  pendingDuring : Bool
  pendingAfter : Bool
deriving DecidableEq, Repr

/-- One run of the updateUser mutation: the mutationFn throws when there is
no current user or when the upsert returns an error; onSuccess navigates to
the Dashboard only when it throws nothing. react-query keeps isPending true
during the request and false once it settled, in success and error alike. -/
def runSubmission (currentUser : Option String) (upsertError : Option StoreError) :
    SubmitEffects :=
  match currentUser with
  | none => { nav := [], pendingDuring := true, pendingAfter := false }
  | some _ =>
    match upsertError with
    | some _ => { nav := [], pendingDuring := true, pendingAfter := false }
    | none => { nav := ["Dashboard"], pendingDuring := true, pendingAfter := false }

/-- Disabled condition of the Finish button at step 4:
updateUser.isPending or nextDisabled. -/
def finishDisabled (isPending : Bool) (fd : FormData) : Bool :=
  isPending || nextDisabled 4 fd

/-- Disabled condition of the forward-navigation control at a given step:
below totalSteps the Next button with nextDisabled, at totalSteps the Finish
button with its extra isPending disjunct. -/
def forwardDisabled (step : Nat) (isPending : Bool) (fd : FormData) : Bool :=
  if step < totalSteps then nextDisabled step fd
  else finishDisabled isPending fd

/-- Required-field predicate modelled from the spec words, step by step:
step 1 requires name non-empty after trim, household_size set and
residence_size chosen; step 2 transportation_type; step 3 heating_type;
step 4 recycling_habit. True when some required field of the step is
unset. -/
def requiredUnset (step : Nat) (fd : FormData) : Bool :=
  match step with
  | 1 => (jsTrim fd.name == "") || (fd.household_size == "") || (fd.residence_size == "")
  | 2 => fd.transportation_type == ""
  | 3 => fd.heating_type == ""
  | 4 => fd.recycling_habit == ""
  | _ => true

/-- The Back button is rendered only when step > 1. -/
def backAvailable (step : Nat) : Bool :=
  decide (step > 1)

/-- The Next button is rendered when step < totalSteps; otherwise the
Finish button takes its place. -/
def nextOffered (step : Nat) : Bool :=
  decide (step < totalSteps)

/-- Effect of the Back button click: setStep (prev - 1). -/
def applyBack (step : Nat) : Nat := step - 1

/-- Effect of the Next button click: setStep (prev + 1). -/
def applyNext (step : Nat) : Nat := step + 1

/-- Initial value of the step state. -/
def initialStep : Nat := 1

/-- Initial value of the loadingUser state. -/
def initialLoadingUser : Bool := true

/-- Step values reachable from the initial step through the rendered
navigation buttons. -/
inductive ReachableStep : Nat → Prop where
  | start : ReachableStep initialStep
  | back {s : Nat} : ReachableStep s → backAvailable s = true → ReachableStep (applyBack s)
  | next {s : Nat} : ReachableStep s → nextOffered s = true → ReachableStep (applyNext s)

/-- What the component body returns: the loading spinner while loadingUser
is true, the wizard card otherwise. -/
inductive RenderOutput where
  | loading : RenderOutput
  | wizard (step : Nat) (fd : FormData) : RenderOutput
deriving DecidableEq, Repr

/-- The top-level render of the component. -/
def render (loadingUser : Bool) (step : Nat) (fd : FormData) : RenderOutput :=
  if loadingUser then RenderOutput.loading else RenderOutput.wizard step fd

/-- The local state the event handlers touch: the step and the form data. -/
structure WizardState where
  step : Nat
  formData : FormData
deriving DecidableEq, Repr

/-- Every field updater in the source calls setFormData with a function of
the previous form data and leaves the rest of the state alone; this lifts
such a function to the wizard state. -/
def applyFormEdit (f : FormData → FormData) (st : WizardState) : WizardState :=
  { st with formData := f st.formData }

/-- The onChange handler of the name input. -/
def setNameEdit (v : String) (prev : FormData) : FormData :=
  { prev with name := v }

/-- The onChange handler of the household-size input. -/
def setHouseholdEdit (v : String) (prev : FormData) : FormData :=
  { prev with household_size := v }

/-- The onClick handler of a residence-size option button. -/
def setResidenceEdit (v : String) (prev : FormData) : FormData :=
  { prev with residence_size := v }

/-- The onClick handler of the garden toggle button. -/
def toggleGardenEdit (prev : FormData) : FormData :=
  { prev with has_garden := !prev.has_garden }

/-- The onClick handler of a transport option button. -/
def setTransportEdit (v : String) (prev : FormData) : FormData :=
  { prev with transportation_type := v }

/-- The onClick handler of a heating option button. -/
def setHeatingEdit (v : String) (prev : FormData) : FormData :=
  { prev with heating_type := v }

/-- The onClick handler of the solar-panels toggle button. -/
def toggleSolarEdit (prev : FormData) : FormData :=
  { prev with has_solar_panels := !prev.has_solar_panels }

/-- The onClick handler of a recycling option button. -/
def setRecyclingEdit (v : String) (prev : FormData) : FormData :=
  { prev with recycling_habit := v }

/-- The example form with household_size zero: every per-step gate passes,
yet the submitted number is 0. -/
def zeroHouseholdForm : FormData :=
  { exampleForm with household_size := "0" }

example : jsToNumber "3" = JSNumber.val 3 := by decide
example : jsToNumber "0" = JSNumber.val 0 := by decide
example : jsToNumber "" = JSNumber.val 0 := by decide
example : jsToNumber "2.5" = JSNumber.fin 25 1 := by decide
example : jsToNumber "2.50" = JSNumber.fin 25 1 := by decide
example : jsToNumber "-2" = JSNumber.val (-2) := by decide
example : jsToNumber "a1" = JSNumber.nan := by decide
example : nextDisabled 1 initialFormState = true := by decide
example : nextDisabled 4 exampleForm = false := by decide
example : JSNumber.isPosIntB (jsToNumber "3") = true := by decide
example : JSNumber.isPosIntB (jsToNumber "0") = false := by decide

/-- C1, counterexample: at step 4 with every required field of the example
form set, the Finish button is nevertheless disabled while the mutation is
pending, so forward navigation is not disabled exactly when the required
fields are unset. -/
theorem c1_counterexample :
    forwardDisabled 4 true exampleForm = true ∧ requiredUnset 4 exampleForm = false := by
  decide

/-- C1, amended: for every step s in [1,4], forward navigation (the Next
button, or Finish on step 4) is disabled exactly when step s required fields
are unset or, on step 4 only, the submission is in flight. -/
theorem c1_forward_disabled_iff (s : Nat) (p : Bool) (fd : FormData)
    (h1 : 1 ≤ s) (h2 : s ≤ 4) :
    forwardDisabled s p fd = true ↔
      (requiredUnset s fd = true ∨ (s = 4 ∧ p = true)) := by
  interval_cases s <;> cases p <;>
    simp [forwardDisabled, finishDisabled, nextDisabled, requiredUnset, totalSteps]

/-- Witness for c1_forward_disabled_iff at step 4, pending submission, the
example form. -/
theorem c1_forward_disabled_iff_witness :
    forwardDisabled 4 true exampleForm = true ↔
      (requiredUnset 4 exampleForm = true ∨ (4 = 4 ∧ true = true)) :=
  c1_forward_disabled_iff 4 true exampleForm (by decide) (by decide)

/-- C2: for every submission from a valid step-4 form state, the upsert call
carries the form state with name trimmed, household_size coerced via numeric
conversion, the categorical and boolean fields unchanged, plus
onboarding_completed = true and has_seen_intro = true, keyed by the current
user id; the dashboard navigation happens exactly when the write succeeds. -/
theorem c2_submit_payload (uid : String) (fd : FormData)
    (_valid : nextDisabled 4 fd = false) :
    updateUserCall uid (handleSubmit fd) =
      { user_id := uid, record := specSubmitPayload fd, onConflict := "user_id" } ∧
    (runSubmission (some uid) none).nav = ["Dashboard"] ∧
    (∀ e : StoreError, (runSubmission (some uid) (some e)).nav = []) :=
  ⟨rfl, rfl, fun _ => rfl⟩

/-- Witness for c2_submit_payload at the Ana example of the spec: the
payload carries household_size 3. -/
theorem c2_submit_payload_witness :
    (handleSubmit exampleForm).household_size = JSNumber.val 3 ∧
    nextDisabled 4 exampleForm = false ∧
    updateUserCall "user-1" (handleSubmit exampleForm) =
      { user_id := "user-1", record := specSubmitPayload exampleForm,
        onConflict := "user_id" } :=
  ⟨by decide, by decide, (c2_submit_payload "user-1" exampleForm (by decide)).1⟩

/-- C3: the step starts at 1 and every step reachable through the rendered
navigation buttons stays in [1,4]; Back is rendered exactly when the step is
not 1 and decreases it by exactly 1, Next increases it by exactly 1 and is
replaced by Finish exactly at step 4. -/
theorem c3_step_invariant :
    (∀ s : Nat, ReachableStep s → 1 ≤ s ∧ s ≤ totalSteps) ∧
    ReachableStep initialStep ∧
    (∀ s : Nat, ReachableStep s → (backAvailable s = true ↔ s ≠ 1)) ∧
    (∀ s : Nat, backAvailable s = true → applyBack s + 1 = s) ∧
    (∀ s : Nat, applyNext s = s + 1) ∧
    (∀ s : Nat, ReachableStep s → (nextOffered s = false ↔ s = 4)) := by
  have bound : ∀ s : Nat, ReachableStep s → 1 ≤ s ∧ s ≤ totalSteps := by
    intro s hs
    induction hs with
    | start => exact ⟨by decide, by decide⟩
    | @back t h hb ih =>
      have h1 : 1 < t := by simpa [backAvailable] using hb
      exact ⟨Nat.le_sub_one_of_lt h1, le_trans (Nat.sub_le _ 1) ih.2⟩
    | @next t h hn ih =>
      have h4 : t < totalSteps := by simpa [nextOffered] using hn
      exact ⟨Nat.le_succ_of_le ih.1, h4⟩
  refine ⟨bound, ReachableStep.start, ?_, ?_, fun s => rfl, ?_⟩
  · intro s hs
    have h1 := (bound s hs).1
    simp only [backAvailable, decide_eq_true_eq, gt_iff_lt]
    omega
  · intro s hb
    have h1 : 1 < s := by simpa [backAvailable] using hb
    simp only [applyBack]
    omega
  · intro s hs
    have h := bound s hs
    simp only [nextOffered, totalSteps, decide_eq_false_iff_not, not_lt] at h ⊢
    omega

/-- Witness for c3_step_invariant: step 2 reached by one Next click is in
bounds. -/
theorem c3_step_invariant_witness :
    1 ≤ applyNext initialStep ∧ applyNext initialStep ≤ totalSteps :=
  c3_step_invariant.1 (applyNext initialStep)
    (ReachableStep.next ReachableStep.start (by decide))

/-- C4: with no authenticated user at guard time, the guard navigates to
Login and performs no other wizard-state effect, and the initial render
(loadingUser true) shows the loading view, not the wizard. -/
theorem c4_unauthenticated_redirect (m1 : Bool) (data : Option InfoRow)
    (err : Option StoreError) (s : Nat) (fd : FormData) :
    runGuard true m1 none data err =
      { navigations := ["Login"], userInfosSet := none, formDataReset := false,
        errorLogged := false, loadingUserSet := some false } ∧
    render initialLoadingUser s fd = RenderOutput.loading :=
  ⟨rfl, rfl⟩

/-- C5: a store lookup error with a code other than PGRST116 is logged and
the guard navigates to Login; a PGRST116 no-row result is non-fatal: no
navigation, the form is reset and loading is cleared so the wizard
renders. -/
theorem c5_lookup_failure (u : String) (data : Option InfoRow) (e : StoreError)
    (h : e.code ≠ "PGRST116") :
    ((runGuard true true (some u) data (some e)).errorLogged = true ∧
     (runGuard true true (some u) data (some e)).navigations = ["Login"]) ∧
    ((runGuard true true (some u) none (some { code := "PGRST116" })).navigations = [] ∧
     (runGuard true true (some u) none (some { code := "PGRST116" })).formDataReset = true ∧
     (runGuard true true (some u) none (some { code := "PGRST116" })).loadingUserSet = some false) := by
  refine ⟨⟨?_, ?_⟩, rfl, rfl, rfl⟩ <;> simp [runGuard, h]

/-- Witness for c5_lookup_failure with error code 500. -/
theorem c5_lookup_failure_witness :
    ((runGuard true true (some "user-2") none (some { code := "500" })).errorLogged = true ∧
     (runGuard true true (some "user-2") none (some { code := "500" })).navigations = ["Login"]) ∧
    ((runGuard true true (some "user-2") none (some { code := "PGRST116" })).navigations = [] ∧
     (runGuard true true (some "user-2") none (some { code := "PGRST116" })).formDataReset = true ∧
     (runGuard true true (some "user-2") none (some { code := "PGRST116" })).loadingUserSet = some false) :=
  c5_lookup_failure "user-2" none { code := "500" } (by decide)

/-- C6: when the fetched record marks onboarding complete, the guard
navigates to Dashboard and neither stores the row nor resets the form, so
the wizard state is never initialised. -/
theorem c6_completed_redirect (u : String) (m1 : Bool) :
    (runGuard true m1 (some u) (some { onboarding_completed := true }) none).navigations = ["Dashboard"] ∧
    (runGuard true m1 (some u) (some { onboarding_completed := true }) none).userInfosSet = none ∧
    (runGuard true m1 (some u) (some { onboarding_completed := true }) none).formDataReset = false :=
  ⟨rfl, rfl, rfl⟩

/-- C7: while the upsert is in flight the Finish button is disabled; when
the upsert fails no navigation is issued, the pending flag drops back to
false, and the Finish button is enabled again on a valid form. -/
theorem c7_failure_no_navigation (u : String) (e : StoreError) (fd : FormData) :
    finishDisabled true fd = true ∧
    (runSubmission (some u) (some e)).nav = [] ∧
    (runSubmission (some u) (some e)).pendingDuring = true ∧
    (runSubmission (some u) (some e)).pendingAfter = false ∧
    (nextDisabled 4 fd = false → finishDisabled false fd = false) := by
  refine ⟨rfl, rfl, rfl, rfl, fun h => ?_⟩
  simp [finishDisabled, h]

/-- Witness for c7_failure_no_navigation: on the valid example form the
Finish button is enabled once the failed request settled. -/
theorem c7_failure_no_navigation_witness :
    nextDisabled 4 exampleForm = false ∧ finishDisabled false exampleForm = false :=
  ⟨by decide,
   (c7_failure_no_navigation "user-3" { code := "500" } exampleForm).2.2.2.2 (by decide)⟩

/-- C8, counterexample: with the component unmounted before the query
resolves (liveness flag false after the await), the guard still issues the
Dashboard redirect for a record marking onboarding complete, so not every
state update of the stale check is suppressed. -/
theorem c8_counterexample :
    (runGuard true false (some "user-4") (some { onboarding_completed := true }) none).navigations =
      ["Dashboard"] ∧
    (["Dashboard"] : List String) ≠ ([] : List String) :=
  ⟨rfl, by decide⟩

/-- C8, amended: on unmount before the async check resolves, only the
catch-branch Login redirect and the loadingUser update are suppressed by the
liveness flag; the Dashboard redirect and the userInfos and formData setters
of the success path still run. -/
theorem c8_unmount_suppression (u : String) (data : Option InfoRow) (e : StoreError)
    (h : e.code ≠ "PGRST116") :
    ((runGuard true false (some u) data (some e)).navigations = [] ∧
     (runGuard true false (some u) data (some e)).loadingUserSet = none ∧
     (runGuard true false (some u) data (some e)).errorLogged = true) ∧
    (runGuard true false (some u) (some { onboarding_completed := true }) none).navigations =
      ["Dashboard"] ∧
    ((runGuard true false (some u) none none).formDataReset = true ∧
     (runGuard true false (some u) none none).userInfosSet = some none ∧
     (runGuard true false (some u) none none).loadingUserSet = none) := by
  refine ⟨⟨?_, ?_, ?_⟩, rfl, rfl, rfl, rfl⟩ <;> simp [runGuard, h]

/-- Witness for c8_unmount_suppression with error code 500. -/
theorem c8_unmount_suppression_witness :
    ((runGuard true false (some "user-5") none (some { code := "500" })).navigations = [] ∧
     (runGuard true false (some "user-5") none (some { code := "500" })).loadingUserSet = none ∧
     (runGuard true false (some "user-5") none (some { code := "500" })).errorLogged = true) ∧
    (runGuard true false (some "user-5") (some { onboarding_completed := true }) none).navigations =
      ["Dashboard"] ∧
    ((runGuard true false (some "user-5") none none).formDataReset = true ∧
     (runGuard true false (some "user-5") none none).userInfosSet = some none ∧
     (runGuard true false (some "user-5") none none).loadingUserSet = none) :=
  c8_unmount_suppression "user-5" none { code := "500" } (by decide)

/-- C9, counterexample: the form with household_size the string 0 passes
every per-step gate, yet the submitted household_size is the number 0, not a
positive integer. -/
theorem c9_counterexample :
    (nextDisabled 1 zeroHouseholdForm = false ∧ nextDisabled 2 zeroHouseholdForm = false ∧
     nextDisabled 3 zeroHouseholdForm = false ∧ nextDisabled 4 zeroHouseholdForm = false) ∧
    (handleSubmit zeroHouseholdForm).household_size = JSNumber.val 0 ∧
    JSNumber.isPosIntB (handleSubmit zeroHouseholdForm).household_size = false := by
  decide

/-- C9, amended: validation only requires the household_size string to be
non-empty; the submitted value is its JavaScript numeric conversion, which
need not be a positive integer. -/
theorem c9_household_size_nonempty (fd : FormData)
    (h : nextDisabled 1 fd = false) :
    fd.household_size ≠ "" ∧
    (handleSubmit fd).household_size = jsToNumber fd.household_size := by
  refine ⟨?_, rfl⟩
  intro hempty
  rw [nextDisabled, hempty] at h
  simp at h

/-- Witness for c9_household_size_nonempty at the example form. -/
theorem c9_household_size_nonempty_witness :
    nextDisabled 1 exampleForm = false ∧
    (exampleForm.household_size ≠ "" ∧
     (handleSubmit exampleForm).household_size = jsToNumber exampleForm.household_size) :=
  ⟨by decide, c9_household_size_nonempty exampleForm (by decide)⟩

/-- C10: every form-field updater changes only its target field, leaving the
step and all other form fields unchanged, and the two boolean toggles negate
exactly their own field. -/
theorem c10_edit_frame (st : WizardState) (v : String) :
    applyFormEdit (setNameEdit v) st = ⟨st.step, { st.formData with name := v }⟩ ∧
    applyFormEdit (setHouseholdEdit v) st = ⟨st.step, { st.formData with household_size := v }⟩ ∧
    applyFormEdit (setResidenceEdit v) st = ⟨st.step, { st.formData with residence_size := v }⟩ ∧
    applyFormEdit toggleGardenEdit st =
      ⟨st.step, { st.formData with has_garden := !st.formData.has_garden }⟩ ∧
    applyFormEdit (setTransportEdit v) st =
      ⟨st.step, { st.formData with transportation_type := v }⟩ ∧
    applyFormEdit (setHeatingEdit v) st = ⟨st.step, { st.formData with heating_type := v }⟩ ∧
    applyFormEdit toggleSolarEdit st =
      ⟨st.step, { st.formData with has_solar_panels := !st.formData.has_solar_panels }⟩ ∧
    applyFormEdit (setRecyclingEdit v) st =
      ⟨st.step, { st.formData with recycling_habit := v }⟩ :=
  ⟨rfl, rfl, rfl, rfl, rfl, rfl, rfl, rfl⟩

end Onboarding
